import Mathlib

/-!
Shallow embedding of the Tajweed-ul-Quran content viewer
(`TajweedApp`, the main page component).

The embedded subsystem is the content navigation and rendering state
machine: the data model of the bundled JSON content
(meta / chapters / sections), the navigation state
(`selectedChapter`, `selectedSection`, `sidebarOpen`), its transition
handlers (`handleChapterClick`, `handleSectionClick`,
`handleBackToChapters`, the sidebar toggle), and the pure view
resolution performed by the component body (`selectedChapterData`,
`selectedSectionData`, `sortedChapters`, the icon lookup table
`iconMap`, the sidebar visibility computation and the conditional
JSX chain choosing between the home/chapter/section renders).

JavaScript details modelled explicitly:
  * `selectedChapter` / `selectedSection` are `string | null`;
    they are embedded as `Option String`.  JavaScript truthiness of
    such a value (`!selectedChapter` in the code) is `truthy`:
    `null` and the empty string are falsy, all other strings truthy.
  * `===` between a `string` and a `string | null` is `strictEq`.
  * `Array.prototype.sort` with comparator `(a, b) => a.order - b.order`
    is, by the ECMAScript specification, a stable sort consistent with
    the comparator; a stable comparator-consistent sort is unique, so it
    is embedded as insertion sort on `chapterLE`, which is stable.
  * the conditional rendering `{cond && jsx}` renders nothing when the
    condition is falsy; absent render output is `Option.none` or `[]`.
  * indexing the `iconMap` object literal follows the JavaScript
    prototype chain: beyond its nine own entries, keys naming
    `Object.prototype` properties (`toString`, `constructor`,
    `__proto__`, ...) read inherited truthy values; only the remaining
    keys read `undefined`.
-/

namespace Tajweed

/-- JavaScript truthiness of a `string | null` value. -/
def truthy : Option String → Bool
  | none => false
  | some s => !(s == "")

/-- JavaScript strict equality `a === b` between a `string` and a
`string | null`. -/
def strictEq (a : String) : Option String → Bool
  | some b => a == b
  | none => false

/-- A section of the bundled content JSON: `id`, `title`, `subtitle`,
`content` (paragraph strings) and the optional `notes` array. -/
structure Section where
  id : String
  title : String
  subtitle : String
  content : List String
  notes : Option (List String)
deriving DecidableEq

/-- A chapter of the bundled content JSON. -/
structure Chapter where
  id : String
  title : String
  subtitle : String
  icon : String
  order : Int
  sections : List Section
deriving DecidableEq

/-- The `meta` object of the bundled content JSON. -/
structure ContentMeta where
  title : String
  subtitle : String
  description : String
deriving DecidableEq

/-- The bundled content JSON (`fiqh-content.json`). -/
structure Content where
  meta : ContentMeta
  chapters : List Chapter
deriving DecidableEq

/-- The navigation state of `TajweedApp`: the three `useState` cells
`selectedChapter`, `selectedSection`, `sidebarOpen`. -/
structure AppState where
  selectedChapter : Option String
  selectedSection : Option String
  sidebarOpen : Bool
deriving DecidableEq

/-- The initial state: `useState(null)`, `useState(null)`,
`useState(true)`. -/
def initialState : AppState := ⟨none, none, true⟩

/-- `handleChapterClick`: sets the selected chapter, clears the selected
section, and on mobile closes the sidebar. -/
def handleChapterClick (isMobile : Bool) (st : AppState) (chapterId : String) : AppState :=
  { st with
    selectedChapter := some chapterId
    selectedSection := none
    sidebarOpen := if isMobile then false else st.sidebarOpen }

/-- `handleSectionClick`: sets the selected section. -/
def handleSectionClick (st : AppState) (sectionId : String) : AppState :=
  { st with selectedSection := some sectionId }

/-- `handleBackToChapters`: clears the selected section. -/
def handleBackToChapters (st : AppState) : AppState :=
  { st with selectedSection := none }

/-- `const sidebarShouldBeOpen = !isMobile || !selectedChapter`. -/
def sidebarShouldBeOpen (isMobile : Bool) (st : AppState) : Bool :=
  !isMobile || !(truthy st.selectedChapter)

/-- `const isSidebarOpen = sidebarOpen ? sidebarShouldBeOpen : false`. -/
def isSidebarOpen (isMobile : Bool) (st : AppState) : Bool :=
  if st.sidebarOpen then sidebarShouldBeOpen isMobile st else false

/-- The header button `onClick={() => setSidebarOpen(!isSidebarOpen)}`:
note it negates the effective visibility, not the stored flag. -/
def toggleSidebar (isMobile : Bool) (st : AppState) : AppState :=
  { st with sidebarOpen := !(isSidebarOpen isMobile st) }

/-- A direct `setSidebarOpen(b)` call (overlay click and close button
use `setSidebarOpen(false)`). -/
def setSidebarOpen (st : AppState) (b : Bool) : AppState :=
  { st with sidebarOpen := b }

/-- `fiqhContent.chapters.find((ch) => ch.id === selectedChapter)`. -/
def selectedChapterData (store : Content) (st : AppState) : Option Chapter :=
  store.chapters.find? (fun ch => strictEq ch.id st.selectedChapter)

/-- `selectedChapterData?.sections.find((sec) => sec.id === selectedSection)`. -/
def selectedSectionData (store : Content) (st : AppState) : Option Section :=
  (selectedChapterData store st).bind
    (fun ch => ch.sections.find? (fun sec => strictEq sec.id st.selectedSection))

/-- The chapter ordering used by the sort comparator
`(a, b) => a.order - b.order`: ascending by the `order` field. -/
def chapterLE (a b : Chapter) : Prop := a.order ≤ b.order

instance : DecidableRel chapterLE := fun a b => Int.decLe a.order b.order

instance : IsTotal Chapter chapterLE := ⟨fun a b => Int.le_total a.order b.order⟩

instance : IsTrans Chapter chapterLE := ⟨fun _ _ _ hab hbc => le_trans hab hbc⟩

/-- `[...fiqhContent.chapters].sort((a, b) => a.order - b.order)`:
a stable sort ascending by `order`, embedded as insertion sort
(the unique stable sort consistent with the comparator). -/
def sortedChapters (chapters : List Chapter) : List Chapter :=
  chapters.insertionSort chapterLE

/-- The glyphs appearing as values of `iconMap` (lucide icons and the
three inline Arabic-letter components). -/
inductive Glyph where
  | bookOpen
  | mapPin
  | sparkles
  | noonLetter
  | meemLetter
  | clock
  | pause
  | hamzaLetter
  | scale
deriving DecidableEq

/-- The own keys of the `iconMap` object literal, in source order. -/
def iconKeys : List String :=
  ["BookOpen", "MapPin", "Sparkles", "N", "M", "Clock", "Pause", "A", "Scale"]

/-- The property names of `Object.prototype` in a mainstream engine:
the seven ECMAScript methods, the `constructor` slot, and the Annex B
legacy accessors (`__proto__` and the getter/setter definition
helpers), all of which every plain object literal inherits. -/
def objectPrototypeKeys : List String :=
  ["constructor", "hasOwnProperty", "isPrototypeOf", "propertyIsEnumerable",
   "toLocaleString", "toString", "valueOf", "__proto__",
   "__defineGetter__", "__defineSetter__", "__lookupGetter__", "__lookupSetter__"]

/-- The value produced by indexing the `iconMap` object literal with a
string key.  A JavaScript property read traverses the prototype chain:
an own entry yields its glyph component; a key naming an
`Object.prototype` property yields the inherited value (a function, or
the prototype object itself for the `__proto__` accessor) — truthy but
not a glyph; any other key yields `undefined`. -/
inductive IconValue where
  | glyph (g : Glyph)
  | inherited
  | undef
deriving DecidableEq

/-- Whether a lookup result is one of the glyph components stored in
the object literal. -/
def IconValue.isGlyph : IconValue → Bool
  | .glyph _ => true
  | .inherited => false
  | .undef => false

/-- JavaScript truthiness of a lookup result: glyph components and
inherited `Object.prototype` values are truthy objects/functions;
`undefined` is falsy. -/
def IconValue.isTruthy : IconValue → Bool
  | .glyph _ => true
  | .inherited => true
  | .undef => false

/-- `iconMap[key]`: property read on the nine-entry object literal,
falling back to the prototype chain (own entries shadow inherited
ones; missing keys yield `undefined`). -/
def iconMap (key : String) : IconValue :=
  match key with
  | "BookOpen" => IconValue.glyph Glyph.bookOpen
  | "MapPin" => IconValue.glyph Glyph.mapPin
  | "Sparkles" => IconValue.glyph Glyph.sparkles
  | "N" => IconValue.glyph Glyph.noonLetter
  | "M" => IconValue.glyph Glyph.meemLetter
  | "Clock" => IconValue.glyph Glyph.clock
  | "Pause" => IconValue.glyph Glyph.pause
  | "A" => IconValue.glyph Glyph.hamzaLetter
  | "Scale" => IconValue.glyph Glyph.scale
  | _ => if key ∈ objectPrototypeKeys then IconValue.inherited else IconValue.undef

/-- `const Icon = iconMap[chapter.icon]` followed by `{Icon && (...)}`:
`none` when the guard suppresses the icon element (falsy lookup),
otherwise the looked-up value placed in the element. -/
def renderedIcon (ch : Chapter) : Option IconValue :=
  if (iconMap ch.icon).isTruthy then some (iconMap ch.icon) else none

/-- The view the main display area resolves to.  `blank` is the final
`: null` of the conditional chain: nothing is rendered. -/
inductive View where
  | chapterList (chapters : List Chapter)
  | sectionList (chapter : Chapter)
  | sectionDetail (chapter : Chapter) (sec : Section)
  | blank
deriving DecidableEq

/-- The conditional JSX chain of the main display area:
`!selectedChapter ? Home
 : selectedChapterData && !selectedSection ? SectionList
 : selectedSectionData && selectedChapterData ? SectionDetail
 : null`. -/
def resolveView (store : Content) (st : AppState) : View :=
  if truthy st.selectedChapter = false then
    View.chapterList (sortedChapters store.chapters)
  else
    match selectedChapterData store st with
    | some ch =>
      if truthy st.selectedSection = false then
        View.sectionList ch
      else
        match ch.sections.find? (fun sec => strictEq sec.id st.selectedSection) with
        | some sec => View.sectionDetail ch sec
        | none => View.blank
    | none => View.blank

/-- The notes block of the section detail render:
`{notes && notes.length > 0 && ( ... notes.map((note, index) => ...) )}`,
where each note is shown with the badge `{index + 1}`.  The result is
the list of (display index, note text) pairs actually rendered. -/
def renderedNotes (s : Section) : List (Nat × String) :=
  match s.notes with
  | some ns =>
      if ns.length > 0 then ns.enum.map (fun p => (p.1 + 1, p.2)) else []
  | none => []

/-- States reachable from the initial state by finite sequences of the
defined operations; `selectSection` is applied only under its
precondition that a chapter is selected. -/
inductive Reachable (isMobile : Bool) : AppState → Prop where
  | init : Reachable isMobile initialState
  | selectChapter {st : AppState} (cid : String) :
      Reachable isMobile st →
      Reachable isMobile (handleChapterClick isMobile st cid)
  | selectSection {st : AppState} (sid : String) :
      Reachable isMobile st → st.selectedChapter ≠ none →
      Reachable isMobile (handleSectionClick st sid)
  | backToSections {st : AppState} :
      Reachable isMobile st →
      Reachable isMobile (handleBackToChapters st)
  | toggle {st : AppState} :
      Reachable isMobile st →
      Reachable isMobile (toggleSidebar isMobile st)
  | setSidebar {st : AppState} (b : Bool) :
      Reachable isMobile st →
      Reachable isMobile (setSidebarOpen st b)

/-- A concrete section used to instantiate theorems with hypotheses. -/
def demoSection : Section :=
  ⟨"s1", "sec title", "sec subtitle", ["paragraph one"], none⟩

/-- A concrete section carrying notes, used to instantiate theorems
with hypotheses. -/
def demoNotesSection : Section :=
  ⟨"s2", "sec title two", "sec subtitle two", ["paragraph"], some ["n1", "n2"]⟩

/-- A concrete chapter used to instantiate theorems with hypotheses. -/
def demoChapter : Chapter :=
  ⟨"c1", "ch title", "ch subtitle", "BookOpen", 1, [demoSection]⟩

/-- A concrete content store used to instantiate theorems with
hypotheses. -/
def demoStore : Content :=
  ⟨⟨"t", "s", "d"⟩, [demoChapter]⟩

/-- C5: `handleChapterClick` sets the selected chapter to the clicked
id, unconditionally clears the selected section, closes the sidebar on
a narrow (mobile) viewport, and leaves the stored sidebar flag
unchanged on a wide viewport. -/
theorem handleChapterClick_spec (isMobile : Bool) (st : AppState) (chapterId : String) :
    handleChapterClick isMobile st chapterId =
      ⟨some chapterId, none, if isMobile then false else st.sidebarOpen⟩ :=
  rfl

/-- C7: `handleBackToChapters` clears the selected section and leaves
both the selected chapter and the stored sidebar flag unchanged; in
particular it is a no-op on the selected chapter even when the
selected section is already `none`. -/
theorem handleBackToChapters_spec (st : AppState) :
    (handleBackToChapters st).selectedSection = none ∧
    (handleBackToChapters st).selectedChapter = st.selectedChapter ∧
    (handleBackToChapters st).sidebarOpen = st.sidebarOpen :=
  ⟨rfl, rfl, rfl⟩

/-- C10: on a mobile viewport, whenever a chapter is selected (the
stored `selectedChapter` is truthy), the effective rendered sidebar
visibility `isSidebarOpen` is `false` regardless of the stored
`sidebarOpen` flag; hence no sequence of sidebar toggles can show the
sidebar while a chapter remains selected on mobile. -/
theorem mobile_selected_sidebar_closed (st : AppState)
    (h : truthy st.selectedChapter = true) :
    isSidebarOpen true st = false := by
  simp [isSidebarOpen, sidebarShouldBeOpen, h]

/-- Witness for C10 at a concrete state with the stored flag on. -/
theorem mobile_selected_sidebar_closed_witness :
    isSidebarOpen true ⟨some "c1", none, true⟩ = false :=
  mobile_selected_sidebar_closed ⟨some "c1", none, true⟩ (by decide)

/-- Counterexample to C1: with the demo store and a selected chapter id
`"zz"` that the chapter lookup does not resolve, the conditional chain
falls through to its final `: null` branch — a blank render — and does
not fall back to the chapter list. -/
theorem resolveView_stale_chapter_counterexample :
    truthy (AppState.mk (some "zz") none true).selectedChapter = true ∧
    selectedChapterData demoStore ⟨some "zz", none, true⟩ = none ∧
    resolveView demoStore ⟨some "zz", none, true⟩ = View.blank ∧
    resolveView demoStore ⟨some "zz", none, true⟩ ≠
      View.chapterList (sortedChapters demoStore.chapters) := by
  refine ⟨by decide, by decide, by decide, by decide⟩

/-- Amended C1: whenever `selectedChapter` is truthy but the chapter
lookup misses, view resolution yields the blank view (`null`): it
never throws and never falls back to the chapter list. -/
theorem resolveView_stale_chapter_blank (store : Content) (st : AppState)
    (h1 : truthy st.selectedChapter = true)
    (h2 : selectedChapterData store st = none) :
    resolveView store st = View.blank := by
  simp [resolveView, h1, h2]

/-- Witness for the amended C1 at a concrete store and state. -/
theorem resolveView_stale_chapter_blank_witness :
    resolveView demoStore ⟨some "zz", none, true⟩ = View.blank :=
  resolveView_stale_chapter_blank demoStore ⟨some "zz", none, true⟩ (by decide) (by decide)

/-- Counterexample to C2: with the demo store, chapter `"c1"` resolving
and a selected section id `"zz"` that does not resolve under it, the
conditional chain falls through to its final `: null` branch — a blank
render — and does not fall back to the section list of `"c1"`. -/
theorem resolveView_stale_section_counterexample :
    selectedChapterData demoStore ⟨some "c1", some "zz", true⟩ = some demoChapter ∧
    selectedSectionData demoStore ⟨some "c1", some "zz", true⟩ = none ∧
    resolveView demoStore ⟨some "c1", some "zz", true⟩ = View.blank ∧
    resolveView demoStore ⟨some "c1", some "zz", true⟩ ≠ View.sectionList demoChapter := by
  refine ⟨by decide, by decide, by decide, by decide⟩

/-- Amended C2: whenever the selected chapter resolves, the selected
section is truthy, and the section lookup under that chapter misses,
view resolution yields the blank view (`null`): it never throws and
never falls back to the section list. -/
theorem resolveView_stale_section_blank (store : Content) (st : AppState) (ch : Chapter)
    (h1 : truthy st.selectedChapter = true)
    (h2 : selectedChapterData store st = some ch)
    (h3 : truthy st.selectedSection = true)
    (h4 : ch.sections.find? (fun sec => strictEq sec.id st.selectedSection) = none) :
    resolveView store st = View.blank := by
  simp [resolveView, h1, h2, h3, h4]

/-- Witness for the amended C2 at a concrete store and state. -/
theorem resolveView_stale_section_blank_witness :
    resolveView demoStore ⟨some "c1", some "zz", true⟩ = View.blank :=
  resolveView_stale_section_blank demoStore ⟨some "c1", some "zz", true⟩ demoChapter
    (by decide) (by decide) (by decide) (by decide)

/-- C6: starting from the initial state, after every finite sequence of
the operations (chapter selection, section selection under its
precondition, back-to-sections, sidebar toggle or set), a selected
section implies a selected chapter. -/
theorem reachable_section_implies_chapter (isMobile : Bool) (st : AppState)
    (h : Reachable isMobile st) :
    st.selectedSection ≠ none → st.selectedChapter ≠ none := by
  induction h with
  | init => intro hs; exact absurd rfl hs
  | selectChapter cid _ _ => intro _; simp [handleChapterClick]
  | selectSection sid _ hpre _ => intro _; simpa [handleSectionClick] using hpre
  | backToSections _ _ => intro hs; exact absurd rfl hs
  | toggle _ ih => intro hs; exact ih hs
  | setSidebar b _ ih => intro hs; exact ih hs

/-- Witness for C6: the state reached by selecting chapter `"c1"` and
then section `"s1"` has a selected chapter. -/
theorem reachable_section_implies_chapter_witness :
    (handleSectionClick (handleChapterClick true initialState "c1") "s1").selectedChapter ≠ none :=
  reachable_section_implies_chapter true _
    (Reachable.selectSection "s1" (Reachable.selectChapter "c1" Reachable.init) (by decide))
    (by decide)

/-- Counterexample to C3: the icon lookup has no fallback glyph, and
keys outside the enumerated set do not even behave uniformly.  For the
key `"Star"` the lookup is `undefined` and the icon element is omitted
(no fallback glyph, icon absent); for the key `"toString"` the lookup
hits the inherited `Object.prototype` method — truthy but not a glyph —
so the guard renders the icon element around a non-glyph value. -/
theorem iconMap_no_fallback_counterexample :
    iconMap "Star" = IconValue.undef ∧
    renderedIcon ⟨"cx", "t", "s", "Star", 1, []⟩ = none ∧
    iconMap "toString" = IconValue.inherited ∧
    (iconMap "toString").isGlyph = false ∧
    renderedIcon ⟨"cy", "t", "s", "toString", 1, []⟩ = some IconValue.inherited := by
  refine ⟨by decide, by decide, by decide, by decide, by decide⟩

/-- Amended C3: the icon lookup is a JavaScript property read on a
nine-entry object literal, so it partitions string keys three ways:
exactly the nine enumerated keys yield glyphs; keys naming
`Object.prototype` properties yield inherited truthy non-glyph values,
for which the guarded render does emit the icon element but without any
enumerated glyph; every other key yields `undefined`, for which the
icon element is omitted.  The lookup itself is total and never throws,
but there is no fallback glyph. -/
theorem iconMap_lookup_partition (key : String) :
    ((iconMap key).isGlyph = true ↔ key ∈ iconKeys) ∧
    (iconMap key = IconValue.inherited ↔ (key ∉ iconKeys ∧ key ∈ objectPrototypeKeys)) ∧
    (iconMap key = IconValue.undef ↔ (key ∉ iconKeys ∧ key ∉ objectPrototypeKeys)) ∧
    ((iconMap key).isTruthy = true ↔ (key ∈ iconKeys ∨ key ∈ objectPrototypeKeys)) := by
  by_cases hp : key ∈ objectPrototypeKeys
  all_goals unfold iconMap
  all_goals split
  all_goals simp_all [iconKeys, objectPrototypeKeys, IconValue.isGlyph, IconValue.isTruthy]

/-- Witness for the amended C3: the prototype key `"toString"` resolves
to the inherited non-glyph value. -/
theorem iconMap_lookup_partition_witness :
    iconMap "toString" = IconValue.inherited :=
  (iconMap_lookup_partition "toString").2.1.mpr (by decide)

/-- C8: after `selectChapter(X)`; `selectSection(Y)`;
`backToSections()`; `selectSection(Y)`, the navigation state — and
hence the resolved chapter and section data (same content and notes) —
is identical to the state after the first `selectSection(Y)`, and both
resolve to the section detail data of the chapter `X` and the section
`Y` found in the content store. -/
theorem reselect_section_same_data (isMobile : Bool) (st : AppState) (store : Content)
    (X Y : String) (ch : Chapter) (sec : Section)
    (hch : store.chapters.find? (fun c => strictEq c.id (some X)) = some ch)
    (hsec : ch.sections.find? (fun s => strictEq s.id (some Y)) = some sec) :
    handleSectionClick (handleBackToChapters
        (handleSectionClick (handleChapterClick isMobile st X) Y)) Y
      = handleSectionClick (handleChapterClick isMobile st X) Y ∧
    selectedChapterData store (handleSectionClick (handleChapterClick isMobile st X) Y)
      = some ch ∧
    selectedSectionData store (handleSectionClick (handleChapterClick isMobile st X) Y)
      = some sec ∧
    resolveView store (handleSectionClick (handleBackToChapters
        (handleSectionClick (handleChapterClick isMobile st X) Y)) Y)
      = resolveView store (handleSectionClick (handleChapterClick isMobile st X) Y) := by
  have hstate : handleSectionClick (handleBackToChapters
      (handleSectionClick (handleChapterClick isMobile st X) Y)) Y
      = handleSectionClick (handleChapterClick isMobile st X) Y := rfl
  have h2 : selectedChapterData store
      (handleSectionClick (handleChapterClick isMobile st X) Y) = some ch := hch
  have h3 : selectedSectionData store
      (handleSectionClick (handleChapterClick isMobile st X) Y) = some sec := by
    unfold selectedSectionData
    rw [h2]
    exact hsec
  exact ⟨hstate, h2, h3, by rw [hstate]⟩

/-- Witness for C8 at the demo store with chapter `"c1"` and section
`"s1"`. -/
theorem reselect_section_same_data_witness :
    selectedSectionData demoStore
      (handleSectionClick (handleChapterClick false initialState "c1") "s1")
      = some demoSection :=
  (reselect_section_same_data false initialState demoStore "c1" "s1" demoChapter demoSection
    (by decide) (by decide)).2.2.1

/-- The display indices of an enumeration shifted by one form the
arithmetic range starting at the successor of the start index. -/
theorem map_fst_enumFrom_shift :
    ∀ (n : Nat) (l : List String),
      ((List.enumFrom n l).map (fun p => (p.1 + 1, p.2))).map Prod.fst
        = List.range' (n + 1) l.length
  | _, [] => rfl
  | n, a :: l => by
    simp only [List.enumFrom, List.map_cons, List.length_cons, List.range'_succ]
    exact congrArg (List.cons (n + 1)) (map_fst_enumFrom_shift (n + 1) l)

/-- The payloads of an enumeration shifted by one are the original
list. -/
theorem map_snd_enumFrom_shift :
    ∀ (n : Nat) (l : List String),
      ((List.enumFrom n l).map (fun p => (p.1 + 1, p.2))).map Prod.snd = l
  | _, [] => rfl
  | n, a :: l => by
    simp only [List.enumFrom, List.map_cons]
    exact congrArg (List.cons a) (map_snd_enumFrom_shift (n + 1) l)

/-- C9: the notes block renders nothing when `notes` is absent, and
nothing when `notes` is the empty sequence (absence and emptiness
render identically); when `notes` is present, each note is rendered in
sequence order carrying a 1-based display index. -/
theorem renderedNotes_spec (s : Section) :
    (s.notes = none → renderedNotes s = []) ∧
    (s.notes = some [] → renderedNotes s = []) ∧
    (∀ ns, s.notes = some ns →
      (renderedNotes s).map Prod.fst = List.range' 1 ns.length ∧
      (renderedNotes s).map Prod.snd = ns) := by
  refine ⟨fun h => by simp [renderedNotes, h], fun h => by simp [renderedNotes, h], ?_⟩
  intro ns h
  cases ns with
  | nil => simp [renderedNotes, h]
  | cons a t =>
    simp only [renderedNotes, h, List.length_cons, Nat.succ_pos, if_pos, List.enum]
    exact ⟨map_fst_enumFrom_shift 0 (a :: t), map_snd_enumFrom_shift 0 (a :: t)⟩

/-- Witness for C9 at a concrete section carrying two notes. -/
theorem renderedNotes_spec_witness :
    (renderedNotes demoNotesSection).map Prod.fst = List.range' 1 2 ∧
    (renderedNotes demoNotesSection).map Prod.snd = ["n1", "n2"] :=
  (renderedNotes_spec demoNotesSection).2.2 ["n1", "n2"] rfl

/-- Inserting a chapter whose `order` equals the key being filtered
puts it at the head of the filtered list: every element it is inserted
after has a strictly smaller `order` and is filtered out. -/
theorem orderedInsert_filter_order_eq (k : Int) (a : Chapter) (ha : a.order = k) :
    ∀ t : List Chapter,
      (t.orderedInsert chapterLE a).filter (fun c => c.order == k)
        = a :: t.filter (fun c => c.order == k)
  | [] => by simp [List.orderedInsert, ha]
  | b :: t => by
    by_cases hab : chapterLE a b
    · rw [List.orderedInsert, if_pos hab, List.filter_cons, List.filter_cons]
      simp [ha]
    · have hlt : b.order < a.order := not_le.mp hab
      have hbk : (b.order == k) = false := by
        have hne : b.order ≠ k := by omega
        exact beq_eq_false_iff_ne.mpr hne
      rw [List.orderedInsert, if_neg hab, List.filter_cons, hbk, List.filter_cons, hbk]
      simpa using orderedInsert_filter_order_eq k a ha t

/-- Inserting a chapter whose `order` differs from the key being
filtered leaves the filtered list unchanged. -/
theorem orderedInsert_filter_order_ne (k : Int) (a : Chapter) (ha : ¬a.order = k) :
    ∀ t : List Chapter,
      (t.orderedInsert chapterLE a).filter (fun c => c.order == k)
        = t.filter (fun c => c.order == k)
  | [] => by simp [List.orderedInsert, beq_eq_false_iff_ne.mpr ha]
  | b :: t => by
    have hak : (a.order == k) = false := beq_eq_false_iff_ne.mpr ha
    by_cases hab : chapterLE a b
    · rw [List.orderedInsert, if_pos hab, List.filter_cons, hak]
      simp
    · rw [List.orderedInsert, if_neg hab, List.filter_cons, List.filter_cons,
        orderedInsert_filter_order_ne k a ha t]

/-- Stability of the chapter sort: for every `order` value, the
chapters carrying that value appear in the sorted output in exactly
their original input order. -/
theorem sortedChapters_filter_stable (k : Int) :
    ∀ cs : List Chapter,
      (sortedChapters cs).filter (fun c => c.order == k)
        = cs.filter (fun c => c.order == k)
  | [] => rfl
  | a :: cs => by
    unfold sortedChapters
    rw [List.insertionSort]
    by_cases ha : a.order = k
    · rw [orderedInsert_filter_order_eq k a ha, List.filter_cons]
      have := sortedChapters_filter_stable k cs
      unfold sortedChapters at this
      rw [this]
      simp [ha]
    · rw [orderedInsert_filter_order_ne k a ha, List.filter_cons,
        beq_eq_false_iff_ne.mpr ha]
      have := sortedChapters_filter_stable k cs
      unfold sortedChapters at this
      rw [this]
      simp

/-- C4: the chapter sequence produced for display is sorted ascending
by `order`, is a permutation of the input collection, and is stable —
for every `order` value the chapters carrying it keep their relative
input positions.  Determinism across re-renders is immediate:
`sortedChapters` is a pure function of the chapter collection. -/
theorem sortedChapters_sorted_stable (cs : List Chapter) :
    List.Sorted chapterLE (sortedChapters cs) ∧
    List.Perm (sortedChapters cs) cs ∧
    ∀ k : Int,
      (sortedChapters cs).filter (fun c => c.order == k)
        = cs.filter (fun c => c.order == k) :=
  ⟨List.sorted_insertionSort chapterLE cs, List.perm_insertionSort chapterLE cs,
    fun k => sortedChapters_filter_stable k cs⟩

end Tajweed
